import Mathlib

/-!
Verification development for the knitbackend task-management API
(`src/index.js`). The JavaScript handlers are shallowly embedded as pure
Lean functions over an explicit database state; the external libraries
the handlers call (bcrypt, jsonwebtoken) and the SQLite statements they
issue are modelled by executable Lean functions that follow those
libraries' documented contracts.
-/

/-- Values a field of a JSON request body can take in the fragment the
handlers inspect: absent (`undefined` in JavaScript), `null`, or a
string. -/
inductive JsVal
  | undef
  | null
  | str (s : String)
deriving DecidableEq

/-- JavaScript truthiness for the values of `JsVal`: `undefined`, `null`
and the empty string are falsy, every other string is truthy. This is
what checks such as `if (!title && !description && !status)` in
`index.js` evaluate. -/
def JsVal.truthy : JsVal → Bool
  | .str s => s != ""
  | _ => false

/-- The string carried by a `JsVal`; only used under a truthiness guard,
where the value is a nonempty string. -/
def JsVal.toStr : JsVal → String
  | .str s => s
  | _ => ""

/-- Conversion of a `JsVal` to a nullable column value: `null` and
`undefined` become SQL NULL, a string is stored as itself. -/
def JsVal.toNullableStr : JsVal → Option String
  | .str s => some s
  | _ => none

/-- A row of the `users` table (`CREATE TABLE users`, index.js lines
24-30): id, unique email, bcrypt password hash stored in the `password`
column, name, creation time. Timestamps are seconds as natural
numbers. -/
structure User where
  id : Nat
  email : String
  password : String
  name : String
  created_at : Nat
deriving DecidableEq

/-- A row of the `tasks` table (`CREATE TABLE tasks`, index.js lines
32-41): id, owning user id, title, nullable description, status,
creation and update times. Named `TaskRow` because `Task` is taken by
the Lean core library. -/
structure TaskRow where
  id : Nat
  user_id : Nat
  title : String
  description : Option String
  status : String
  created_at : Nat
  updated_at : Nat
deriving DecidableEq

/-- The SQLite database state: the two tables plus the AUTOINCREMENT
counters that produce `this.lastID` for inserts. -/
structure DB where
  users : List User
  nextUserId : Nat
  tasks : List TaskRow
  nextTaskId : Nat
deriving DecidableEq

/-- Modelled from the bcrypt library contract used at index.js lines 71
and 111: `bcrypt.hash` produces an opaque digest string from the plain
password, and `bcrypt.compare` accepts exactly the passwords the digest
was derived from. The model makes the digest a tagged copy of the
input so that `bcryptCompare p (bcryptHash p) = true`. -/
def bcryptHash (plain : String) : String :=
  "bcrypt$" ++ plain

/-- Modelled from the bcrypt library contract: comparison of a plain
password against a stored digest. -/
def bcryptCompare (plain digest : String) : Bool :=
  digest == bcryptHash plain

/-- A value occurring in a JWT claim set or a JSON response object:
either a number or a string. -/
inductive ClaimValue
  | num (n : Nat)
  | strv (s : String)
deriving DecidableEq

/-- Modelled from the jsonwebtoken library contract: a signed token is
the signed claim set together with the secret it was signed under; a
verifier holding the same secret recovers the claims, any other secret
fails. -/
structure Token where
  payload : List (String × ClaimValue)
  secret : String
deriving DecidableEq

/-- Lookup of a claim by name in a claim set. -/
def lookupClaim (k : String) (cs : List (String × ClaimValue)) : Option ClaimValue :=
  (cs.find? (fun c => c.1 == k)).map (fun c => c.2)

/-- Modelled from the jsonwebtoken library contract for
`jwt.sign(payload, secret, \x7b expiresIn: '24h' \x7d)` (index.js lines 84
and 117): the signed claim set is the given payload extended with
`iat`, the issue time, and `exp = iat + 86400` (24 hours in
seconds). -/
def jwtSign (claims : List (String × ClaimValue)) (secret : String) (now : Nat) : Token :=
  { payload := claims ++ [("iat", .num now), ("exp", .num (now + 86400))],
    secret := secret }

/-- Outcome of `jwt.verify`. -/
inductive VerifyResult
  | ok (claims : List (String × ClaimValue))
  | invalid
  | expired
deriving DecidableEq

/-- Modelled from the jsonwebtoken library contract for
`jwt.verify(token, secret, cb)` (index.js line 53): fails as invalid if
the token was signed under a different secret, as expired if the
current time has reached the `exp` claim, and otherwise yields the
claim set. -/
def jwtVerify (t : Token) (secret : String) (now : Nat) : VerifyResult :=
  if t.secret != secret then .invalid
  else
    match lookupClaim "exp" t.payload with
    | some (.num e) => if e ≤ now then .expired else .ok t.payload
    | _ => .ok t.payload

/-- The process-wide signing secret, index.js line 10:
`const JWT_SECRET = 'your-secret-key-change-in-production'` — a string
literal, not read from any external configuration. -/
def JWT_SECRET : String :=
  "your-secret-key-change-in-production"

/-- Process configuration available after startup. -/
structure Config where
  secret : String
deriving DecidableEq

/-- Startup of the program (index.js lines 8-20 and 309): the server is
created and starts listening unconditionally. No environment variable
is consulted for the secret and no startup check can fail, so startup
ignores the environment `env` and always succeeds with the literal
`JWT_SECRET`. -/
def startup (env : String → Option String) : Option Config :=
  some { secret := JWT_SECRET }

/-- Token issuance as performed identically at index.js lines 84 and
117: sign the claim set with keys `id` and `email` under
`JWT_SECRET`. -/
def issueToken (userId : Nat) (email : String) (now : Nat) : Token :=
  jwtSign [("id", .num userId), ("email", .strv email)] JWT_SECRET now

/-- Body of an HTTP response produced by the handlers, keeping exactly
the JSON keys each `res.json` call in index.js emits. A JavaScript
object field holding `undefined` is dropped by `res.json`, hence
`msgOnly` for a `message`-only body. -/
inductive Body
  | errMsg (error : String)
  | msgOnly (message : String)
  | taskBody (message : Option String) (task : TaskRow)
  | tasksBody (tasks : List TaskRow)
  | userBody (user : List (String × ClaimValue))
  | profBody (message : String) (user : List (String × ClaimValue))
  | authBody (message : String) (token : Token) (user : List (String × ClaimValue))
deriving DecidableEq

/-- An HTTP response: status code and JSON body. -/
structure HttpResp where
  status : Nat
  body : Body
deriving DecidableEq

/-- The public user object returned by login (index.js line 122) and
signup (line 89): exactly the keys `id`, `email`, `name`. -/
def loginRespUser (u : User) : List (String × ClaimValue) :=
  [("id", .num u.id), ("email", .strv u.email), ("name", .strv u.name)]

/-- The user object produced by `SELECT id, email, name, created_at
FROM users WHERE id = ?` (index.js lines 133 and 178): exactly those
four columns, never the password column. -/
def profileRespUser (u : User) : List (String × ClaimValue) :=
  [("id", .num u.id), ("email", .strv u.email),
   ("name", .strv u.name), ("created_at", .num u.created_at)]

/-- Splitting a character list at every single space character, exactly
as JavaScript `String.prototype.split(' ')` does: empty segments are
kept, and a string without spaces yields the one-element list holding
it. -/
def splitOnSpace : List Char → List (List Char)
  | [] => [[]]
  | c :: cs =>
    let r := splitOnSpace cs
    if c = ' ' then [] :: r
    else
      match r with
      | [] => [[c]]
      | s :: rest => (c :: s) :: rest

/-- Token extraction of the authentication middleware (index.js lines
46-47): `authHeader && authHeader.split(' ')[1]`. A missing header, a
missing second segment, or an empty (falsy) second segment yield no
token. -/
def extractToken : Option (List Char) → Option (List Char)
  | none => none
  | some h =>
    match (splitOnSpace h)[1]? with
    | none => none
    | some [] => none
    | some t => some t

/-- Result of the authentication middleware. -/
inductive AuthResult
  | denied (status : Nat) (error : String)
  | granted (claims : List (String × ClaimValue))
deriving DecidableEq

/-- The `authenticateToken` middleware (index.js lines 45-58),
parametrised by the verifier `vf` applied to the extracted token
string: 401 when no token is extracted, 403 when verification fails,
otherwise the verified claims become `req.user`. -/
def authenticateToken (vf : List Char → Option (List (String × ClaimValue)))
    (header : Option (List Char)) : AuthResult :=
  match extractToken header with
  | none => .denied 401 "Access token required"
  | some tok =>
    match vf tok with
    | none => .denied 403 "Invalid or expired token"
    | some c => .granted c

/-- The `POST /api/auth/signup` handler (index.js lines 63-96): all
three fields required, INSERT fails with 409 when the unique email
already exists, otherwise the row is inserted, a token is signed for
`this.lastID`, and 201 is returned. -/
def signupHandler (db : DB) (email password name : JsVal) (now : Nat) :
    HttpResp × DB :=
  if !email.truthy || !password.truthy || !name.truthy then
    ({ status := 400, body := .errMsg "Email, password, and name are required" }, db)
  else if db.users.any (fun u => u.email == email.toStr) then
    ({ status := 409, body := .errMsg "Email already exists" }, db)
  else
    let uid := db.nextUserId
    let u : User :=
      { id := uid, email := email.toStr, password := bcryptHash password.toStr,
        name := name.toStr, created_at := now }
    ({ status := 201,
       body := .authBody "User created successfully" (issueToken uid u.email now)
         (loginRespUser u) },
     { db with users := db.users ++ [u], nextUserId := uid + 1 })

/-- The `POST /api/auth/login` handler (index.js lines 99-128): both
fields required, then `SELECT * FROM users WHERE email = ?`; a missing
user and a failing password comparison both answer 401 "Invalid
credentials"; success signs a fresh token. -/
def loginHandler (db : DB) (email password : JsVal) (now : Nat) : HttpResp :=
  if !email.truthy || !password.truthy then
    { status := 400, body := .errMsg "Email and password are required" }
  else
    match db.users.find? (fun u => u.email == email.toStr) with
    | none => { status := 401, body := .errMsg "Invalid credentials" }
    | some u =>
      if !bcryptCompare password.toStr u.password then
        { status := 401, body := .errMsg "Invalid credentials" }
      else
        { status := 200,
          body := .authBody "Login successful" (issueToken u.id u.email now)
            (loginRespUser u) }

/-- The `GET /api/profile` handler (index.js lines 131-142): selects
only the public columns of the authenticated user's row. -/
def getProfileHandler (db : DB) (uid : Nat) : HttpResp :=
  match db.users.find? (fun u => u.id == uid) with
  | none => { status := 404, body := .errMsg "User not found" }
  | some u => { status := 200, body := .userBody (profileRespUser u) }

/-- Body of a `PUT /api/profile` request. -/
structure ProfileBody where
  name : JsVal
  email : JsVal
deriving DecidableEq

/-- The dynamic SET clause of `PUT /api/profile` applied to one user
row: only truthy supplied fields are written. -/
def applyProfileUpdate (b : ProfileBody) (u : User) : User :=
  { u with
    name := if b.name.truthy then b.name.toStr else u.name,
    email := if b.email.truthy then b.email.toStr else u.email }

/-- The rows of the user table after `UPDATE users SET ... WHERE id =
?` has run: the row with the given id receives the dynamic SET clause,
every other row is untouched. -/
def updatedUsers (db : DB) (uid : Nat) (b : ProfileBody) : List User :=
  db.users.map (fun u => if u.id == uid then applyProfileUpdate b u else u)

/-- The `PUT /api/profile` handler (index.js lines 145-187): at least
one truthy field required; `UPDATE users SET ... WHERE id = ?` fails
with 409 when the new email collides with a different existing row;
afterwards the public view is re-selected. -/
def updateProfileHandler (db : DB) (uid : Nat) (b : ProfileBody) :
    HttpResp × DB :=
  if !b.name.truthy && !b.email.truthy then
    ({ status := 400, body := .errMsg "At least one field (name or email) is required" }, db)
  else if b.email.truthy
      && db.users.any (fun u => u.id == uid)
      && db.users.any (fun u => u.email == b.email.toStr && u.id != uid) then
    ({ status := 409, body := .errMsg "Email already exists" }, db)
  else
    match (updatedUsers db uid b).find? (fun u => u.id == uid) with
    | some u =>
      ({ status := 200, body := .profBody "Profile updated successfully" (profileRespUser u) },
       { db with users := updatedUsers db uid b })
    | none =>
      ({ status := 200, body := .msgOnly "Profile updated successfully" },
       { db with users := updatedUsers db uid b })

/-- The `GET /api/tasks` handler (index.js lines 214-223):
`SELECT * FROM tasks WHERE user_id = ? ORDER BY created_at DESC`. -/
def createdDesc (a b : TaskRow) : Prop :=
  b.created_at ≤ a.created_at

instance : DecidableRel createdDesc :=
  fun a b => Nat.decLe b.created_at a.created_at

instance : IsTotal TaskRow createdDesc :=
  ⟨fun a b => (Nat.le_total b.created_at a.created_at).imp id id⟩

instance : IsTrans TaskRow createdDesc :=
  ⟨fun _ _ _ hab hbc => Nat.le_trans hbc hab⟩

/-- The `GET /api/tasks` handler: the owner's rows, most recently
created first. -/
def listTasksHandler (db : DB) (uid : Nat) : HttpResp :=
  { status := 200,
    body := .tasksBody
      ((db.tasks.filter (fun t => t.user_id == uid)).insertionSort createdDesc) }

/-- The `GET /api/tasks/:id` handler (index.js lines 226-237):
`SELECT * FROM tasks WHERE id = ? AND user_id = ?`, 404 when no row
matches. -/
def getTaskHandler (db : DB) (uid tid : Nat) : HttpResp :=
  match db.tasks.find? (fun t => t.id == tid && t.user_id == uid) with
  | none => { status := 404, body := .errMsg "Task not found" }
  | some t => { status := 200, body := .taskBody none t }

/-- Body of a `PUT /api/tasks/:id` request. -/
structure TaskUpdateBody where
  title : JsVal
  description : JsVal
  status : JsVal
deriving DecidableEq

/-- True when at least one field of the update body is truthy, the
validation test of index.js line 243. -/
def TaskUpdateBody.anyField (b : TaskUpdateBody) : Bool :=
  b.title.truthy || b.description.truthy || b.status.truthy

/-- The dynamic SET clause of `PUT /api/tasks/:id` applied to one task
row (index.js lines 247-263): title and status are written when
truthy, description whenever it is not `undefined` (so `null` and `""`
are written), and `updated_at` is always refreshed. -/
def applyTaskUpdate (b : TaskUpdateBody) (now : Nat) (t : TaskRow) : TaskRow :=
  { t with
    title := if b.title.truthy then b.title.toStr else t.title,
    description :=
      match b.description with
      | .undef => t.description
      | d => d.toNullableStr,
    status := if b.status.truthy then b.status.toStr else t.status,
    updated_at := now }

/-- The rows of the task table after `UPDATE tasks SET ... WHERE id = ?
AND user_id = ?` has run: the row matching both the task id and the
owner id receives the dynamic SET clause, every other row is
untouched. -/
def updatedTasks (db : DB) (uid tid : Nat) (b : TaskUpdateBody) (now : Nat) : List TaskRow :=
  db.tasks.map
    (fun t => if t.id == tid && t.user_id == uid then applyTaskUpdate b now t else t)

/-- The `PUT /api/tasks/:id` handler (index.js lines 240-285): at least
one truthy field required; `UPDATE tasks SET ... WHERE id = ? AND
user_id = ?`; `this.changes === 0` answers 404; otherwise the row is
re-selected by id. -/
def updateTaskHandler (db : DB) (uid tid : Nat) (b : TaskUpdateBody) (now : Nat) :
    HttpResp × DB :=
  if !b.anyField then
    ({ status := 400, body := .errMsg "At least one field is required" }, db)
  else if db.tasks.countP (fun t => t.id == tid && t.user_id == uid) = 0 then
    ({ status := 404, body := .errMsg "Task not found" },
     { db with tasks := updatedTasks db uid tid b now })
  else
    match (updatedTasks db uid tid b now).find? (fun t => t.id == tid) with
    | some t =>
      ({ status := 200, body := .taskBody (some "Task updated successfully") t },
       { db with tasks := updatedTasks db uid tid b now })
    | none =>
      ({ status := 200, body := .msgOnly "Task updated successfully" },
       { db with tasks := updatedTasks db uid tid b now })

/-- The `DELETE /api/tasks/:id` handler (index.js lines 288-301):
`DELETE FROM tasks WHERE id = ? AND user_id = ?`, 404 when zero rows
are affected. -/
def deleteTaskHandler (db : DB) (uid tid : Nat) : HttpResp × DB :=
  if db.tasks.countP (fun t => t.id == tid && t.user_id == uid) = 0 then
    ({ status := 404, body := .errMsg "Task not found" }, db)
  else
    ({ status := 200, body := .msgOnly "Task deleted successfully" },
     { db with tasks := db.tasks.filter (fun t => !(t.id == tid && t.user_id == uid)) })

/-- True when no two rows of the task table share an id, the invariant
the `INTEGER PRIMARY KEY AUTOINCREMENT` column enforces. -/
def noDupIds : List TaskRow → Bool
  | [] => true
  | t :: ts => ts.all (fun x => x.id != t.id) && noDupIds ts

/-- The empty database right after table creation. -/
def dbEmpty : DB :=
  { users := [], nextUserId := 1, tasks := [], nextTaskId := 1 }

/-- A registered user holding the bcrypt hash of the password "p1". -/
def userA : User :=
  { id := 1, email := "a@x.com", password := bcryptHash "p1", name := "A", created_at := 0 }

/-- A database holding exactly the user `userA`. -/
def dbOneUser : DB :=
  { users := [userA], nextUserId := 2, tasks := [], nextTaskId := 1 }

/-- A task owned by user 2. -/
def taskOfB : TaskRow :=
  { id := 1, user_id := 2, title := "t", description := none, status := "pending",
    created_at := 0, updated_at := 0 }

/-- A database whose only task belongs to user 2. -/
def dbTaskOfB : DB :=
  { users := [], nextUserId := 1, tasks := [taskOfB], nextTaskId := 2 }

/-- The token payload the specification sentence asserts: exactly the
claims `sub`, `email` and `exp`, with expiry 24 hours after
issuance. This definition follows the words of the spec, for
comparison with `issueToken`, which follows the code. -/
def specTokenPayload (userId : Nat) (email : String) (now : Nat) :
    List (String × ClaimValue) :=
  [("sub", .num userId), ("email", .strv email), ("exp", .num (now + 86400))]

/-- In a task list without duplicate ids, two member rows with the same
id are the same row. -/
theorem noDupIds_inj {l : List TaskRow} (h : noDupIds l = true)
    {a b : TaskRow} (ha : a ∈ l) (hb : b ∈ l) (hid : a.id = b.id) : a = b := by
  induction l with
  | nil => cases ha
  | cons t ts ih =>
    rw [noDupIds, Bool.and_eq_true, List.all_eq_true] at h
    rcases List.mem_cons.mp ha with rfl | ha' <;>
      rcases List.mem_cons.mp hb with rfl | hb'
    · rfl
    · exact absurd hid.symm (bne_iff_ne.mp (h.1 b hb'))
    · exact absurd hid (bne_iff_ne.mp (h.1 a ha'))
    · exact ih h.2 ha' hb'

/-- C3. The claim asserts that the signing secret is external
configuration and that its absence makes startup fail. The program
refutes this at the concrete input of a completely empty environment:
startup succeeds and the effective secret is the string literal of
index.js line 10. -/
theorem C3_counterexample :
    startup (fun _ => none) = some { secret := "your-secret-key-change-in-production" }
    ∧ JWT_SECRET = "your-secret-key-change-in-production" :=
  ⟨rfl, rfl⟩

/-- C3 amended: the signing secret is the hardcoded string literal
`your-secret-key-change-in-production`; startup never consults the
environment, always succeeds, and uses that literal whatever the
external configuration holds. -/
theorem C3_hardcoded_secret :
    ∀ env : String → Option String,
      startup env = some { secret := "your-secret-key-change-in-production" }
      ∧ JWT_SECRET = "your-secret-key-change-in-production" :=
  fun _ => ⟨rfl, rfl⟩

/-- C5. Calling the task-update handler with a body in which no
updatable field is set yields the 400 validation error and returns the
database completely unchanged, so no updated_at is refreshed. -/
theorem C5_empty_update_is_pure_validation_error :
    ∀ (db : DB) (uid tid now : Nat),
      updateTaskHandler db uid tid { title := .undef, description := .undef, status := .undef } now
        = ({ status := 400, body := .errMsg "At least one field is required" }, db) :=
  fun _ _ _ _ => rfl

/-- C4. The claim asserts the issued token carries exactly the claims
`sub`, `email`, `exp`. The token actually signed at signup (index.js
line 84) carries the claims `id`, `email`, `iat`, `exp`: at the
concrete signup shown, the payload has no `sub` claim at all and
differs from the payload the specification sentence describes. -/
theorem C4_counterexample :
    (signupHandler dbEmpty (.str "a@x.com") (.str "p1") (.str "A") 0).1
      = { status := 201,
          body := .authBody "User created successfully"
            { payload := [("id", .num 1), ("email", .strv "a@x.com"),
                          ("iat", .num 0), ("exp", .num 86400)],
              secret := JWT_SECRET }
            [("id", .num 1), ("email", .strv "a@x.com"), ("name", .strv "A")] }
    ∧ lookupClaim "sub" (issueToken 1 "a@x.com" 0).payload = none
    ∧ (issueToken 1 "a@x.com" 0).payload ≠ specTokenPayload 1 "a@x.com" 0 := by
  refine ⟨rfl, rfl, ?_⟩
  decide

/-- C4 amended: for every user id, email and issue time, the token
signed at signup and login carries exactly the claims
`id`, `email`, `iat`, `exp` (no `sub` claim), and its expiry
is fixed at 86400 seconds — 24 hours — after the issue time. -/
theorem C4_token_payload :
    ∀ (uid : Nat) (e : String) (now : Nat),
      (issueToken uid e now).payload
        = [("id", .num uid), ("email", .strv e), ("iat", .num now), ("exp", .num (now + 86400))]
      ∧ lookupClaim "exp" (issueToken uid e now).payload = some (.num (now + 86400))
      ∧ lookupClaim "sub" (issueToken uid e now).payload = none
      ∧ (issueToken uid e now).secret = JWT_SECRET := by
  intro uid e now
  refine ⟨rfl, ?_, ?_, rfl⟩ <;> simp [issueToken, jwtSign, lookupClaim, List.find?]

/-- C2. The claim asserts that login distinguishes an unknown email
from a wrong password. The handler refutes this at a concrete pair of
requests against a one-user store: the unknown-email request and the
wrong-password request receive the very same 401 "Invalid credentials"
response. -/
theorem C2_counterexample :
    loginHandler dbOneUser (.str "nobody@x.com") (.str "p1") 0
      = loginHandler dbOneUser (.str "a@x.com") (.str "wrong") 0
    ∧ loginHandler dbOneUser (.str "nobody@x.com") (.str "p1") 0
      = { status := 401, body := .errMsg "Invalid credentials" } := by
  constructor <;> decide

/-- C2 amended: both login failure cases are indistinguishable — when
no user has the given email, and when the user exists but the password
comparison fails, the handler returns the identical
401 "Invalid credentials" response. -/
theorem C2_uniform_invalid_credentials :
    ∀ (db : DB) (e p : String), e ≠ "" → p ≠ "" →
      (db.users.find? (fun u => u.email == e) = none →
        ∀ now, loginHandler db (.str e) (.str p) now
          = { status := 401, body := .errMsg "Invalid credentials" })
      ∧ (∀ u, db.users.find? (fun u => u.email == e) = some u →
          bcryptCompare p u.password = false →
          ∀ now, loginHandler db (.str e) (.str p) now
            = { status := 401, body := .errMsg "Invalid credentials" }) := by
  intro db e p he hp
  constructor
  · intro hfind now
    simp [loginHandler, JsVal.truthy, JsVal.toStr, he, hp, hfind]
  · intro u hfind hcmp now
    simp [loginHandler, JsVal.truthy, JsVal.toStr, he, hp, hfind, hcmp]

/-- C2 witness: the amended theorem applied to the one-user store at
both concrete failure inputs. -/
theorem C2_uniform_invalid_credentials_witness :
    loginHandler dbOneUser (.str "nobody@x.com") (.str "p1") 0
      = { status := 401, body := .errMsg "Invalid credentials" }
    ∧ loginHandler dbOneUser (.str "a@x.com") (.str "wrong") 0
      = { status := 401, body := .errMsg "Invalid credentials" } :=
  ⟨(C2_uniform_invalid_credentials dbOneUser "nobody@x.com" "p1" (by decide) (by decide)).1
      (by decide) 0,
   (C2_uniform_invalid_credentials dbOneUser "a@x.com" "wrong" (by decide) (by decide)).2
      userA (by decide) (by decide) 0⟩

/-- No row of the task table satisfies the ownership-scoped predicate
for requester `A` and the id of a task owned by someone else, given
unique ids. -/
theorem cross_pred_false (db : DB) (A : Nat) (t : TaskRow)
    (hnd : noDupIds db.tasks = true) (ht : t ∈ db.tasks) (hB : t.user_id ≠ A) :
    ∀ x ∈ db.tasks, ¬((x.id == t.id && x.user_id == A) = true) := by
  intro x hx hpx
  rw [Bool.and_eq_true, beq_iff_eq, beq_iff_eq] at hpx
  have hxt : x = t := noDupIds_inj hnd hx ht hpx.1
  exact hB (hxt ▸ hpx.2)

/-- No row of the task table satisfies the ownership-scoped predicate
for an id that no row has. -/
theorem absent_pred_false (db : DB) (A tid2 : Nat)
    (habs : db.tasks.all (fun x => x.id != tid2) = true) :
    ∀ x ∈ db.tasks, ¬((x.id == tid2 && x.user_id == A) = true) := by
  intro x hx hpx
  rw [Bool.and_eq_true, beq_iff_eq] at hpx
  exact bne_iff_ne.mp (List.all_eq_true.mp habs x hx) hpx.1

/-- C1. A token for user A never reaches a task owned by a different
user B: with unique task ids, get, update and delete invoked with A's
identity on B's task id answer 404 Task-not-found, and each response
coincides with the response the same handler gives for a task id that
no row has at all. For update, any request body that passes the
at-least-one-field validation reaches the 404; bodies that fail
validation get the same 400 on both ids. -/
theorem C1_cross_owner_isolation :
    ∀ (db : DB) (A : Nat) (t : TaskRow) (tid2 : Nat),
      noDupIds db.tasks = true →
      t ∈ db.tasks →
      t.user_id ≠ A →
      db.tasks.all (fun x => x.id != tid2) = true →
      (getTaskHandler db A t.id = { status := 404, body := .errMsg "Task not found" }
        ∧ getTaskHandler db A t.id = getTaskHandler db A tid2)
      ∧ (∀ (b : TaskUpdateBody) (now : Nat),
          (updateTaskHandler db A t.id b now).1 = (updateTaskHandler db A tid2 b now).1
          ∧ (b.anyField = true →
              (updateTaskHandler db A t.id b now).1
                = { status := 404, body := .errMsg "Task not found" }))
      ∧ ((deleteTaskHandler db A t.id).1 = { status := 404, body := .errMsg "Task not found" }
        ∧ (deleteTaskHandler db A t.id).1 = (deleteTaskHandler db A tid2).1) := by
  intro db A t tid2 hnd ht hB habs
  have hcross := cross_pred_false db A t hnd ht hB
  have habs2 := absent_pred_false db A tid2 habs
  have hf1 : db.tasks.find? (fun x => x.id == t.id && x.user_id == A) = none :=
    List.find?_eq_none.mpr hcross
  have hf2 : db.tasks.find? (fun x => x.id == tid2 && x.user_id == A) = none :=
    List.find?_eq_none.mpr habs2
  have hc1 : db.tasks.countP (fun x => x.id == t.id && x.user_id == A) = 0 :=
    List.countP_eq_zero.mpr hcross
  have hc2 : db.tasks.countP (fun x => x.id == tid2 && x.user_id == A) = 0 :=
    List.countP_eq_zero.mpr habs2
  refine ⟨⟨?_, ?_⟩, ?_, ?_, ?_⟩
  · simp [getTaskHandler, hf1]
  · simp [getTaskHandler, hf1, hf2]
  · intro b now
    constructor
    · cases hb : b.anyField with
      | false => simp [updateTaskHandler, hb]
      | true => simp [updateTaskHandler, hb, hc1, hc2]
    · intro hbt
      simp [updateTaskHandler, hbt, hc1]
  · simp [deleteTaskHandler, hc1]
  · simp [deleteTaskHandler, hc1, hc2]

/-- C1 witness: in the store whose only task (id 1) belongs to user 2,
requester 1 gets 404 from get and delete on that id, identical to the
response for absent id 99, and update with a status-only body gets the
same 404. -/
theorem C1_cross_owner_isolation_witness :
    (getTaskHandler dbTaskOfB 1 taskOfB.id = { status := 404, body := .errMsg "Task not found" }
      ∧ getTaskHandler dbTaskOfB 1 taskOfB.id = getTaskHandler dbTaskOfB 1 99)
    ∧ (updateTaskHandler dbTaskOfB 1 taskOfB.id
        { title := .undef, description := .undef, status := .str "done" } 7).1
        = { status := 404, body := .errMsg "Task not found" }
    ∧ (deleteTaskHandler dbTaskOfB 1 taskOfB.id).1
        = { status := 404, body := .errMsg "Task not found" } :=
  ⟨(C1_cross_owner_isolation dbTaskOfB 1 taskOfB 99
      (by decide) (by decide) (by decide) (by decide)).1,
   ((C1_cross_owner_isolation dbTaskOfB 1 taskOfB 99
      (by decide) (by decide) (by decide) (by decide)).2.1
      { title := .undef, description := .undef, status := .str "done" } 7).2 (by decide),
   ((C1_cross_owner_isolation dbTaskOfB 1 taskOfB 99
      (by decide) (by decide) (by decide) (by decide)).2.2).1⟩

/-- C7. Listing tasks for a user returns exactly the rows owned by that
user — a permutation of the owner-filtered table, hence the same
number of rows and no row of any other user — ordered by creation time
descending. -/
theorem C7_list_tasks_exact_and_sorted :
    ∀ (db : DB) (uid : Nat),
      ∃ l, listTasksHandler db uid = { status := 200, body := .tasksBody l }
        ∧ l.Perm (db.tasks.filter (fun t => t.user_id == uid))
        ∧ l.length = (db.tasks.filter (fun t => t.user_id == uid)).length
        ∧ List.Sorted createdDesc l
        ∧ ∀ t ∈ l, t.user_id = uid := by
  intro db uid
  refine ⟨_, rfl, List.perm_insertionSort _ _, (List.perm_insertionSort _ _).length_eq,
    List.sorted_insertionSort _ _, ?_⟩
  intro t htl
  rw [List.mem_insertionSort] at htl
  exact beq_iff_eq.mp (List.mem_filter.mp htl).2

/-- The claim list signed into a token, spelled out. -/
theorem issueToken_payload_eq (uid : Nat) (e : String) (now : Nat) :
    (issueToken uid e now).payload
      = [("id", .num uid), ("email", .strv e), ("iat", .num now), ("exp", .num (now + 86400))] :=
  rfl

/-- The `exp` claim of every issued token sits 86400 seconds after the
issue time. -/
theorem lookupClaim_exp_issueToken (uid : Nat) (e : String) (now : Nat) :
    lookupClaim "exp" (issueToken uid e now).payload = some (.num (now + 86400)) := by
  simp [issueToken, jwtSign, lookupClaim, List.find?]

/-- Verifying a freshly issued token under the signing secret at its
issue time succeeds with its claim set. -/
theorem jwtVerify_issueToken (uid : Nat) (e : String) (now : Nat) :
    jwtVerify (issueToken uid e now) JWT_SECRET now = .ok (issueToken uid e now).payload := by
  have hlt : ¬(now + 86400 ≤ now) := by omega
  simp [jwtVerify, issueToken, jwtSign, lookupClaim, List.find?, hlt]

/-- Successful signup in full: with all three fields present and the
email fresh, the handler answers 201 carrying a token for the next
user id and appends the new row with the hashed password. -/
theorem signup_success_state (db : DB) (e p n : String) (now : Nat)
    (he : e ≠ "") (hp : p ≠ "") (hn : n ≠ "")
    (hany : db.users.any (fun u => u.email == e) = false) :
    signupHandler db (.str e) (.str p) (.str n) now
      = ({ status := 201,
           body := .authBody "User created successfully" (issueToken db.nextUserId e now)
             (loginRespUser
               { id := db.nextUserId, email := e, password := bcryptHash p,
                 name := n, created_at := now }) },
         { db with
             users := db.users
               ++ [{ id := db.nextUserId, email := e, password := bcryptHash p,
                     name := n, created_at := now }],
             nextUserId := db.nextUserId + 1 }) := by
  simp [signupHandler, JsVal.truthy, JsVal.toStr, he, hp, hn, hany]

/-- C6. For fields that pass signup validation and a fresh email,
signup answers 201, an immediate login with the same email and
password on the resulting store answers 200, and the token that login
returns is accepted by token verification under the signing secret. -/
theorem C6_signup_then_login :
    ∀ (db : DB) (e p n : String) (now now2 : Nat),
      e ≠ "" → p ≠ "" → n ≠ "" →
      (∀ u ∈ db.users, u.email ≠ e) →
      (signupHandler db (.str e) (.str p) (.str n) now).1.status = 201
      ∧ ∃ tok user,
          loginHandler (signupHandler db (.str e) (.str p) (.str n) now).2
              (.str e) (.str p) now2
            = { status := 200, body := .authBody "Login successful" tok user }
          ∧ jwtVerify tok JWT_SECRET now2 = .ok tok.payload := by
  intro db e p n now now2 he hp hn hfresh
  have hany : db.users.any (fun u => u.email == e) = false :=
    List.any_eq_false.mpr (fun u hu => by simp [hfresh u hu])
  have hnone : db.users.find? (fun u => u.email == e) = none :=
    List.find?_eq_none.mpr (fun u hu => by simp [hfresh u hu])
  rw [signup_success_state db e p n now he hp hn hany]
  refine ⟨rfl, issueToken db.nextUserId e now2,
    loginRespUser
      { id := db.nextUserId, email := e, password := bcryptHash p,
        name := n, created_at := now },
    ?_, jwtVerify_issueToken _ _ _⟩
  simp [loginHandler, JsVal.truthy, JsVal.toStr, he, hp, List.find?_append, hnone,
    List.find?, bcryptCompare]

/-- C6 witness: the roundtrip at a concrete registration on the empty
store. -/
theorem C6_signup_then_login_witness :
    (signupHandler dbEmpty (.str "a@x.com") (.str "p1") (.str "A") 0).1.status = 201
    ∧ ∃ tok user,
        loginHandler (signupHandler dbEmpty (.str "a@x.com") (.str "p1") (.str "A") 0).2
            (.str "a@x.com") (.str "p1") 5
          = { status := 200, body := .authBody "Login successful" tok user }
        ∧ jwtVerify tok JWT_SECRET 5 = .ok tok.payload :=
  C6_signup_then_login dbEmpty "a@x.com" "p1" "A" 0 5
    (by decide) (by decide) (by decide) (by decide)

/-- C8. The stored password hash never reaches a response: the profile
handler's answer is unchanged under any rewrite of every stored
password hash; the profile user object consists of exactly the four
public columns; both response user objects ignore the password field;
signup's response is the same whichever (truthy) password was
submitted; and a successful login response carries exactly the public
view and token of the matched user. -/
theorem C8_no_password_exposure :
    (∀ (db : DB) (uid : Nat) (f : User → String),
      getProfileHandler
          { db with users := db.users.map (fun u => { u with password := f u }) } uid
        = getProfileHandler db uid)
    ∧ (∀ u : User, profileRespUser u
        = [("id", .num u.id), ("email", .strv u.email),
           ("name", .strv u.name), ("created_at", .num u.created_at)])
    ∧ (∀ (u : User) (pw : String),
        profileRespUser { u with password := pw } = profileRespUser u
        ∧ loginRespUser { u with password := pw } = loginRespUser u)
    ∧ (∀ (db : DB) (e n : JsVal) (now : Nat) (p1 p2 : JsVal),
        p1.truthy = true → p2.truthy = true →
        (signupHandler db e p1 n now).1 = (signupHandler db e p2 n now).1)
    ∧ (∀ (db : DB) (e p : JsVal) (now : Nat),
        (loginHandler db e p now).status = 200 →
        ∃ u ∈ db.users,
          loginHandler db e p now
            = { status := 200,
                body := .authBody "Login successful" (issueToken u.id u.email now)
                  (loginRespUser u) }) := by
  refine ⟨?_, fun _ => rfl, fun _ _ => ⟨rfl, rfl⟩, ?_, ?_⟩
  · intro db uid f
    simp only [getProfileHandler, List.find?_map]
    have hcomp : ((fun u : User => u.id == uid) ∘ fun u => { u with password := f u })
        = fun u : User => u.id == uid := rfl
    rw [hcomp]
    cases db.users.find? (fun u : User => u.id == uid) <;> rfl
  · intro db e n now p1 p2 hp1 hp2
    simp only [signupHandler, hp1, hp2, Bool.not_true, Bool.or_false, Bool.false_or]
    split_ifs <;> rfl
  · intro db e p now h
    cases hcond : (!e.truthy || !p.truthy) with
    | true => simp [loginHandler, hcond] at h
    | false =>
      cases hfind : db.users.find? (fun u => u.email == e.toStr) with
      | none => simp [loginHandler, hcond, hfind] at h
      | some u =>
        cases hcmp : bcryptCompare p.toStr u.password with
        | false => simp [loginHandler, hcond, hfind, hcmp] at h
        | true =>
          exact ⟨u, List.mem_of_find?_eq_some hfind,
            by simp [loginHandler, hcond, hfind, hcmp]⟩

/-- C8 witness: signup responses agree across two different passwords,
and the concrete successful login response is the matched user's
public view. -/
theorem C8_no_password_exposure_witness :
    (signupHandler dbEmpty (.str "a@x.com") (.str "p1") (.str "A") 0).1
      = (signupHandler dbEmpty (.str "a@x.com") (.str "p2") (.str "A") 0).1
    ∧ ∃ u ∈ dbOneUser.users,
        loginHandler dbOneUser (.str "a@x.com") (.str "p1") 0
          = { status := 200,
              body := .authBody "Login successful" (issueToken u.id u.email 0)
                (loginRespUser u) } :=
  ⟨C8_no_password_exposure.2.2.2.1 dbEmpty (.str "a@x.com") (.str "A") 0
      (.str "p1") (.str "p2") (by decide) (by decide),
   C8_no_password_exposure.2.2.2.2 dbOneUser (.str "a@x.com") (.str "p1") 0 (by decide)⟩

/-- C9. Partial updates write only supplied fields. On task-update
success the stored table is exactly the scoped rewrite `updatedTasks`;
the rewrite leaves title, description and status of the matched row
unchanged whenever the corresponding field is not supplied, always
refreshes updated_at, and never touches id, owner or created_at; rows
not matching both ids are untouched. Likewise on profile-update
success with `updatedUsers`, which leaves unsupplied name and email
unchanged and never touches id, password hash or created_at. -/
theorem C9_partial_update_frame :
    ∀ (db : DB) (uid tid : Nat) (tb : TaskUpdateBody) (pb : ProfileBody) (now : Nat),
      ((updateTaskHandler db uid tid tb now).1.status = 200 →
        (updateTaskHandler db uid tid tb now).2.tasks = updatedTasks db uid tid tb now)
      ∧ (∀ t : TaskRow,
          (tb.title = .undef → (applyTaskUpdate tb now t).title = t.title)
          ∧ (tb.description = .undef →
              (applyTaskUpdate tb now t).description = t.description)
          ∧ (tb.status = .undef → (applyTaskUpdate tb now t).status = t.status)
          ∧ (applyTaskUpdate tb now t).updated_at = now
          ∧ (applyTaskUpdate tb now t).id = t.id
          ∧ (applyTaskUpdate tb now t).user_id = t.user_id
          ∧ (applyTaskUpdate tb now t).created_at = t.created_at)
      ∧ (∀ t ∈ db.tasks, ¬(t.id = tid ∧ t.user_id = uid) →
          t ∈ updatedTasks db uid tid tb now)
      ∧ ((updateProfileHandler db uid pb).1.status = 200 →
          (updateProfileHandler db uid pb).2.users = updatedUsers db uid pb)
      ∧ (∀ u : User,
          (pb.name = .undef → (applyProfileUpdate pb u).name = u.name)
          ∧ (pb.email = .undef → (applyProfileUpdate pb u).email = u.email)
          ∧ (applyProfileUpdate pb u).id = u.id
          ∧ (applyProfileUpdate pb u).password = u.password
          ∧ (applyProfileUpdate pb u).created_at = u.created_at)
      ∧ (∀ u ∈ db.users, u.id ≠ uid → u ∈ updatedUsers db uid pb) := by
  intro db uid tid tb pb now
  refine ⟨?_, ?_, ?_, ?_, ?_, ?_⟩
  · intro h
    cases ha : tb.anyField with
    | false => simp [updateTaskHandler, ha] at h
    | true =>
      by_cases hc : db.tasks.countP (fun t => t.id == tid && t.user_id == uid) = 0
      · simp [updateTaskHandler, ha, hc]
      · cases hf : (updatedTasks db uid tid tb now).find? (fun t => t.id == tid) <;>
          simp [updateTaskHandler, ha, hc, hf]
  · intro t
    refine ⟨?_, ?_, ?_, rfl, rfl, rfl, rfl⟩
    · intro h; simp [applyTaskUpdate, h, JsVal.truthy]
    · intro h; simp [applyTaskUpdate, h]
    · intro h; simp [applyTaskUpdate, h, JsVal.truthy]
  · intro t ht hne
    refine List.mem_map.mpr ⟨t, ht, ?_⟩
    cases h1 : (t.id == tid && t.user_id == uid) with
    | false => simp [h1]
    | true =>
      rw [Bool.and_eq_true, beq_iff_eq, beq_iff_eq] at h1
      exact absurd h1 hne
  · intro h
    cases hv : (!pb.name.truthy && !pb.email.truthy) with
    | true => simp [updateProfileHandler, hv] at h
    | false =>
      cases hconf : (pb.email.truthy && db.users.any (fun u => u.id == uid)
          && db.users.any (fun u => u.email == pb.email.toStr && u.id != uid)) with
      | true => simp [updateProfileHandler, hv, hconf] at h
      | false =>
        cases hf : (updatedUsers db uid pb).find? (fun u => u.id == uid) <;>
          simp [updateProfileHandler, hv, hconf, hf]
  · intro u
    refine ⟨?_, ?_, rfl, rfl, rfl⟩
    · intro h; simp [applyProfileUpdate, h, JsVal.truthy]
    · intro h; simp [applyProfileUpdate, h, JsVal.truthy]
  · intro u hu hne
    refine List.mem_map.mpr ⟨u, hu, ?_⟩
    have : (u.id == uid) = false := beq_eq_false_iff_ne.mpr hne
    simp [this]

/-- A task owned by user 1, carrying a description. -/
def taskOfA : TaskRow :=
  { id := 2, user_id := 1, title := "t2", description := some "d", status := "pending",
    created_at := 3, updated_at := 3 }

/-- A store holding `userA` and that user's task. -/
def dbForUpdate : DB :=
  { users := [userA], nextUserId := 2, tasks := [taskOfA], nextTaskId := 3 }

/-- An update body supplying only the status field. -/
def tbStatusOnly : TaskUpdateBody :=
  { title := .undef, description := .undef, status := .str "done" }

/-- A profile body supplying only the name field. -/
def pbNameOnly : ProfileBody :=
  { name := .str "B", email := .undef }

/-- C9 witness: both partial updates succeed at the concrete store and
leave the stores exactly at their scoped rewrites, and the unsupplied
title field survives the task rewrite. -/
theorem C9_partial_update_frame_witness :
    (updateTaskHandler dbForUpdate 1 2 tbStatusOnly 9).2.tasks
      = updatedTasks dbForUpdate 1 2 tbStatusOnly 9
    ∧ (updateProfileHandler dbForUpdate 1 pbNameOnly).2.users
      = updatedUsers dbForUpdate 1 pbNameOnly
    ∧ (applyTaskUpdate tbStatusOnly 9 taskOfA).title = taskOfA.title :=
  ⟨(C9_partial_update_frame dbForUpdate 1 2 tbStatusOnly pbNameOnly 9).1 (by decide),
   (C9_partial_update_frame dbForUpdate 1 2 tbStatusOnly pbNameOnly 9).2.2.2.1 (by decide),
   ((C9_partial_update_frame dbForUpdate 1 2 tbStatusOnly pbNameOnly 9).2.1 taskOfA).1
     (by decide)⟩

/-- A list of characters without a space splits into the one-segment
list holding it, as with JavaScript split. -/
theorem splitOnSpace_no_space : ∀ (l : List Char), ' ' ∉ l → splitOnSpace l = [l]
  | [], _ => rfl
  | c :: cs, h => by
    have hc : ¬(c = ' ') := fun hec => h (List.mem_cons.mpr (Or.inl hec.symm))
    have hcs : ' ' ∉ cs := fun hm => h (List.mem_cons_of_mem c hm)
    have ih := splitOnSpace_no_space cs hcs
    simp [splitOnSpace, ih, hc]

/-- Splitting a list whose first space sits right after the space-free
segment `w` yields `w` followed by the split of the remainder. -/
theorem splitOnSpace_sep : ∀ (w t : List Char), ' ' ∉ w →
    splitOnSpace (w ++ ' ' :: t) = w :: splitOnSpace t
  | [], t, _ => by simp [splitOnSpace]
  | c :: w, t, h => by
    have hc : ¬(c = ' ') := fun hec => h (List.mem_cons.mpr (Or.inl hec.symm))
    have hw : ' ' ∉ w := fun hm => h (List.mem_cons_of_mem c hm)
    have ih := splitOnSpace_sep w t hw
    simp [splitOnSpace, ih, hc]

/-- C10. The session guard never checks the Authorization scheme: the
token is whatever stands between the first and the second space, so any
scheme word followed by a single space and a verifiable token is
accepted, while a header without a space, a header ending at its first
space, a header with two consecutive spaces after the first word, and a
missing header are all rejected with 401 before verification. -/
theorem C10_no_scheme_check :
    ∀ (vf : List Char → Option (List (String × ClaimValue)))
      (w t rest : List Char) (c : List (String × ClaimValue)),
      ' ' ∉ w → ' ' ∉ t → t ≠ [] →
      (extractToken (some (w ++ ' ' :: t)) = some t
        ∧ (vf t = some c →
            authenticateToken vf (some (w ++ ' ' :: t)) = .granted c)
        ∧ (vf t = none →
            authenticateToken vf (some (w ++ ' ' :: t))
              = .denied 403 "Invalid or expired token"))
      ∧ authenticateToken vf (some w) = .denied 401 "Access token required"
      ∧ authenticateToken vf (some (w ++ [' '])) = .denied 401 "Access token required"
      ∧ authenticateToken vf (some (w ++ ' ' :: ' ' :: rest))
          = .denied 401 "Access token required"
      ∧ authenticateToken vf none = .denied 401 "Access token required" := by
  intro vf w t rest c hw ht htne
  have hextr : extractToken (some (w ++ ' ' :: t)) = some t := by
    have hsep := splitOnSpace_sep w t hw
    cases t with
    | nil => exact absurd rfl htne
    | cons a as =>
      have hts := splitOnSpace_no_space (a :: as) ht
      simp [extractToken, hsep, hts]
  refine ⟨⟨hextr, ?_, ?_⟩, ?_, ?_, ?_, rfl⟩
  · intro hvf
    simp [authenticateToken, hextr, hvf]
  · intro hvf
    simp [authenticateToken, hextr, hvf]
  · have hws := splitOnSpace_no_space w hw
    simp [authenticateToken, extractToken, hws]
  · have hsep := splitOnSpace_sep w [] hw
    simp [authenticateToken, extractToken, hsep, splitOnSpace]
  · have hsep := splitOnSpace_sep w (' ' :: rest) hw
    simp [authenticateToken, extractToken, hsep, splitOnSpace]

/-- A verifier accepting every token string with an empty claim set,
for exercising the guard. -/
def vfAccept : List Char → Option (List (String × ClaimValue)) :=
  fun _ => some []

/-- C10 witness: the guard at concrete headers — the non-Bearer scheme
word Any before a valid token is accepted, a spaceless header and a
double-space header are rejected with 401. -/
theorem C10_no_scheme_check_witness :
    extractToken (some (['A', 'n', 'y'] ++ ' ' :: ['t', 'o', 'k'])) = some ['t', 'o', 'k']
    ∧ authenticateToken vfAccept (some (['A', 'n', 'y'] ++ ' ' :: ['t', 'o', 'k']))
        = .granted []
    ∧ authenticateToken vfAccept (some ['A', 'n', 'y'])
        = .denied 401 "Access token required"
    ∧ authenticateToken vfAccept (some (['A', 'n', 'y'] ++ ' ' :: ' ' :: ['t', 'o', 'k']))
        = .denied 401 "Access token required" :=
  let h := C10_no_scheme_check vfAccept ['A', 'n', 'y'] ['t', 'o', 'k'] ['t', 'o', 'k'] []
    (by decide) (by decide) (by decide)
  ⟨h.1.1, h.1.2.1 rfl, h.2.1, h.2.2.2.1⟩
